import Mathlib

/-!
Shallow embedding of the atomsnap library core (src/atomsnap.c), the
handle-based atomic snapshot gate: 64-bit control blocks packing
a 24-bit outer refcount and a 40-bit handle, a dual-counter
reclamation protocol, and a slot arena free-stack with depth tags.

Pointers are modelled as `Option Nat` (none = NULL) or as bare `Nat`
addresses; 64-bit unsigned words are `Nat` with explicit `% 2^64`;
the C `int64_t` inner counter is `Int` with explicit two's-complement
wrapping.  Each definition transcribes one C function; mutable state
read or written by a function is passed in and returned explicitly.
-/

/-! ### Constants (atomsnap.c lines 63-144) -/

def HANDLE_SLOT_BITS : Nat := 14

def HANDLE_ARENA_BITS : Nat := 6

def HANDLE_THREAD_BITS : Nat := 20

def HANDLE_NULL : Nat := 0xFFFFFFFFFF

def HANDLE_MASK_40 : Nat := 0x000000FFFFFFFFFF

def STACK_DEPTH_SHIFT : Nat := 40

def STACK_DEPTH_MASK : Nat := 0xFFFFFF0000000000

def STACK_DEPTH_INC : Nat := 1 <<< STACK_DEPTH_SHIFT

def REF_COUNT_SHIFT : Nat := 40

def REF_COUNT_INC : Nat := 1 <<< REF_COUNT_SHIFT

def REF_COUNT_MASK : Nat := 0xFFFFFF0000000000

def HANDLE_MASK_64 : Nat := 0x000000FFFFFFFFFF

def WRAPAROUND_FACTOR : Nat := 0x1000000

def WRAPAROUND_MASK : Nat := 0xFFFFFF

def MAX_THREADS : Nat := 1048575

def MAX_ARENAS_PER_THREAD : Nat := 64

def SLOTS_PER_ARENA : Nat := 16383

/-! ### C `int64_t` / `uint64_t` arithmetic -/

/-- Two's-complement bit pattern of an `int64_t` value, as a `Nat` below `2^64`. -/
def toU64 (x : Int) : Nat := (x % (2 ^ 64 : Int)).toNat

/-- Read a 64-bit pattern back as a signed `int64_t` value. -/
def ofU64 (n : Nat) : Int := if n < 2 ^ 63 then (n : Int) else (n : Int) - 2 ^ 64

/-- Wrap an integer into the `int64_t` range (C11 atomics on signed
integers wrap silently in two's complement). -/
def wrap64 (x : Int) : Int := (x + 2 ^ 63) % 2 ^ 64 - 2 ^ 63

/-- `atomic_fetch_add` / `atomic_fetch_sub` result value on `int64_t`. -/
def int64_add (x y : Int) : Int := wrap64 (x + y)

def int64_sub (x y : Int) : Int := wrap64 (x - y)

/-- Bitwise AND on `int64_t` values (used by `atomic_fetch_and`). -/
def int64_and (x y : Int) : Int := ofU64 (toU64 x &&& toU64 y)

/-! ### Handles (atomsnap.c lines 156-164, 264-308) -/

/-- The bit fields of `atomsnap_handle_t`: in declaration order
`slot_idx(14) | arena_idx(6) | thread_idx(20) | padding(24)`,
least-significant first per the C ABI bitfield layout. -/
structure HandleFields where
  slot_idx : Nat
  arena_idx : Nat
  thread_idx : Nat
deriving DecidableEq, Repr

/-- Decode the bit fields from a clean 40-bit handle. -/
def decode_handle (raw : Nat) : HandleFields :=
  { slot_idx := raw % 2 ^ HANDLE_SLOT_BITS
    arena_idx := raw / 2 ^ HANDLE_SLOT_BITS % 2 ^ HANDLE_ARENA_BITS
    thread_idx := raw / 2 ^ (HANDLE_SLOT_BITS + HANDLE_ARENA_BITS)
      % 2 ^ HANDLE_THREAD_BITS }

/-- `construct_handle` (atomsnap.c lines 300-308): write the three index
fields into a zeroed 64-bit word.  Bitfield assignment truncates each
index to its field width. -/
def construct_handle (tid aid sid : Nat) : Nat :=
  sid % 2 ^ HANDLE_SLOT_BITS
    + (aid % 2 ^ HANDLE_ARENA_BITS) * 2 ^ HANDLE_SLOT_BITS
    + (tid % 2 ^ HANDLE_THREAD_BITS) * 2 ^ (HANDLE_SLOT_BITS + HANDLE_ARENA_BITS)

/-- The global arena directory `g_arena_table`, mapping
`(thread_idx, arena_idx)` to the arena base address (`none` = NULL entry). -/
def ArenaTable : Type := Nat → Nat → Option Nat

/-- `resolve_handle` (atomsnap.c lines 264-284): mask the 64-bit carrier
down to 40 bits (discarding any depth tag), return NULL for the all-ones
sentinel or an unset arena-table entry, else the address of slot
`slot_idx` inside the arena, modelled as the pair
(arena base address, slot index). -/
def resolve_handle (tbl : ArenaTable) (handle_tagged : Nat) : Option (Nat × Nat) :=
  let handle_raw := handle_tagged &&& HANDLE_MASK_40
  if handle_raw = HANDLE_NULL then
    none
  else
    let h := decode_handle handle_raw
    match tbl h.thread_idx h.arena_idx with
    | none => none
    | some arena => some (arena, h.slot_idx)

/-! ### Data structures (atomsnap.c lines 186-238) -/

/-- `struct atomsnap_gate`.  `free_impl` is an opaque function-pointer
address, `0` = NULL.  `extra_control_blocks` is the heap array
(empty list = NULL pointer, as allocated by `atomsnap_init_gate`). -/
structure AtomsnapGate where
  control_block : Nat
  extra_control_blocks : List Nat
  num_extra_slots : Int
  free_impl : Nat
deriving DecidableEq, Repr

/-- `struct atomsnap_version`.  `object` and `free_context` are opaque
user pointers; `gate` is the back-link; `inner_ref_cnt` is the
`_Atomic int64_t` counter; `link_handle` is the
`self_handle` / `next_handle` union word. -/
structure AtomsnapVersion where
  object : Option Nat
  free_context : Option Nat
  gate : Option AtomsnapGate
  inner_ref_cnt : Int
  link_handle : Nat
deriving DecidableEq, Repr

/-- `new_ver ? new_ver->self_handle : HANDLE_NULL` (and likewise for
`expected`) in the exchange entry points. -/
def version_handle : Option AtomsnapVersion → Nat
  | none => HANDLE_NULL
  | some v => v.link_handle

/-- `gate ? gate->free_impl : NULL`, for the NULL checks on the back-link. -/
def gate_free_impl : Option AtomsnapGate → Nat
  | none => 0
  | some g => g.free_impl

/-- `struct atomsnap_init_context` (atomsnap.h). -/
structure AtomsnapInitContext where
  free_impl : Nat
  num_extra_control_blocks : Int
deriving DecidableEq, Repr

/-! ### Gate lifecycle (atomsnap.c lines 734-787) -/

/-- `atomsnap_init_gate` (lines 734-770).  `gateAllocOk` / `extraAllocOk`
model the outcome of the two `calloc` calls.  On a NULL `free_impl` the
freshly allocated gate is freed again, so the net result is `none`. -/
def atomsnap_init_gate (gateAllocOk extraAllocOk : Bool)
    (ctx : AtomsnapInitContext) : Option AtomsnapGate :=
  if gateAllocOk = false then
    none
  else if ctx.free_impl = 0 then
    none
  else if 0 < ctx.num_extra_control_blocks then
    if extraAllocOk = false then
      none
    else
      some { control_block := HANDLE_NULL
             extra_control_blocks :=
               List.replicate ctx.num_extra_control_blocks.toNat HANDLE_NULL
             num_extra_slots := ctx.num_extra_control_blocks
             free_impl := ctx.free_impl }
  else
    some { control_block := HANDLE_NULL
           extra_control_blocks := []
           num_extra_slots := ctx.num_extra_control_blocks
           free_impl := ctx.free_impl }

/-- What `atomsnap_destroy_gate` frees. -/
structure DestroyGateResult where
  freed_extra_blocks : Bool
  freed_gate : Bool
deriving DecidableEq, Repr

/-- `atomsnap_destroy_gate` (lines 777-787): returns immediately on NULL,
otherwise frees the extra-block array (when its pointer is non-NULL)
and the gate itself. -/
def atomsnap_destroy_gate : Option AtomsnapGate → DestroyGateResult
  | none => { freed_extra_blocks := false, freed_gate := false }
  | some g => { freed_extra_blocks := !g.extra_control_blocks.isEmpty
                freed_gate := true }

/-! ### Version lifecycle (atomsnap.c lines 619-649, 798-874) -/

/-- `atomsnap_make_version` (lines 798-824).  `ctxOk` models whether
`get_or_init_thread_context` succeeded; `allocHandle` is the result of
`alloc_slot` (`HANDLE_NULL` = exhaustion); `slot` is the slot storage the
handle resolves to, whose fields are (re)initialized. -/
def atomsnap_make_version (ctxOk : Bool) (allocHandle : Nat)
    (gate : Option AtomsnapGate) (slot : AtomsnapVersion) :
    Option AtomsnapVersion :=
  if ctxOk = false then
    none
  else if allocHandle = HANDLE_NULL then
    none
  else
    some { slot with object := none, free_context := none,
                     gate := gate, inner_ref_cnt := 0 }

/-- Effect of `free_slot` (lines 619-649) on the owning arena, for one
successful CAS attempt against head value `old_top`: the new 64-bit head
and the value stored into the slot's `next_handle`. -/
structure FreeSlotResult where
  top_after : Nat
  next_stored : Nat
deriving DecidableEq, Repr

/-- `free_slot` (lines 619-649): push the slot onto its arena's
free-stack.  `depth` keeps the tagged upper 24 bits of the old head,
incremented by `STACK_DEPTH_INC` (wrapping in `uint64_t`); the new head
is `[new depth | self handle]` and `next_handle` receives the entire
prior head word, depth tag included. -/
def free_slot (self_handle old_top : Nat) : FreeSlotResult :=
  let depth := old_top &&& STACK_DEPTH_MASK
  let depth' := (depth + STACK_DEPTH_INC) % 2 ^ 64
  { top_after := depth' ||| self_handle
    next_stored := old_top }

/-- Observable outcome of `atomsnap_free_version`: the arguments the user
free callback was invoked with (if it was), and whether the slot went
back to the free-stack. -/
structure FreeVersionResult where
  callback : Option (Option Nat × Option Nat)
  slot_freed : Bool
deriving DecidableEq, Repr

/-- `atomsnap_free_version` (lines 835-846): NULL-safe; invokes the user
callback only when `object`, `gate` and `gate->free_impl` are all
non-NULL; always returns the slot via `free_slot`. -/
def atomsnap_free_version : Option AtomsnapVersion → FreeVersionResult
  | none => { callback := none, slot_freed := false }
  | some v =>
    if v.object.isSome && v.gate.isSome && (gate_free_impl v.gate != 0) then
      { callback := some (v.object, v.free_context), slot_freed := true }
    else
      { callback := none, slot_freed := true }

/-- `atomsnap_set_object` (lines 855-862): NULL-safe field update. -/
def atomsnap_set_object : Option AtomsnapVersion → Option Nat → Option Nat →
    Option AtomsnapVersion
  | none, _, _ => none
  | some v, o, c => some { v with object := o, free_context := c }

/-- `atomsnap_get_object` (lines 871-874): `ver ? ver->object : NULL`. -/
def atomsnap_get_object : Option AtomsnapVersion → Option Nat
  | none => none
  | some v => v.object

/-! ### Reader protocol (atomsnap.c lines 892-942) -/

/-- Outcome of `atomsnap_acquire_version_slot`: the post-fetch-add control
block word and the resolved slot (none = NULL version pointer). -/
structure AcquireResult where
  cb_after : Nat
  acquired : Option (Nat × Nat)
deriving DecidableEq, Repr

/-- `atomsnap_acquire_version_slot` (lines 892-905): one atomic
`fetch_add(REF_COUNT_INC)` on the slot's control block (value wraps in
`uint64_t`); the handle is the lower 40 bits of the value the fetch-add
returned (the pre-add value), resolved through the arena table. -/
def atomsnap_acquire_version_slot (tbl : ArenaTable) (cb : Nat) :
    AcquireResult :=
  let val := cb
  let handle := val &&& HANDLE_MASK_64
  { cb_after := (cb + REF_COUNT_INC) % 2 ^ 64
    acquired := resolve_handle tbl handle }

/-- Observable outcome of `atomsnap_release_version` on the version's
state: the post-increment inner counter (none when the version was NULL
and nothing was touched), callback invocation, slot return. -/
structure ReleaseResult where
  inner_after : Option Int
  callback : Option (Option Nat × Option Nat)
  slot_freed : Bool
deriving DecidableEq, Repr

/-- `atomsnap_release_version` (lines 915-942): NULL-safe; increments
`inner_ref_cnt` by 1; when the post-value `rc` is exactly 0 invokes the
user callback (guarded on `gate` and `free_impl` being non-NULL) and
returns the slot via `free_slot`. -/
def atomsnap_release_version : Option AtomsnapVersion → ReleaseResult
  | none => { inner_after := none, callback := none, slot_freed := false }
  | some ver =>
    let rc := int64_add ver.inner_ref_cnt 1
    if rc = 0 then
      { inner_after := some rc
        callback :=
          if ver.gate.isSome && (gate_free_impl ver.gate != 0) then
            some (ver.object, ver.free_context)
          else
            none
        slot_freed := true }
    else
      { inner_after := some rc, callback := none, slot_freed := false }

/-! ### Writer protocol (atomsnap.c lines 951-1077) -/

/-- Outcome of the displaced-version debit shared by
`atomsnap_exchange_version_slot` and
`atomsnap_compare_exchange_version_slot`. -/
structure DetachResult where
  inner_after : Int
  callback : Option (Option Nat × Option Nat)
  slot_freed : Bool
deriving DecidableEq, Repr

/-- The debit sequence applied to a displaced version (lines 970-993 and
1052-1073): `fetch_and` masks the inner counter into the 24-bit domain,
`fetch_sub` debits the captured outer count, one extra
`WRAPAROUND_FACTOR` is subtracted when the result came out positive;
`rc == 0` triggers the user callback (guarded on `free_impl`) and
`free_slot`. -/
def detach_old_version (free_impl : Nat) (old_ver : AtomsnapVersion)
    (old_refs : Nat) : DetachResult :=
  let masked := int64_and old_ver.inner_ref_cnt (WRAPAROUND_MASK : Int)
  let rc1 := int64_sub masked (old_refs : Int)
  let rc := if 0 < rc1 then int64_sub rc1 (WRAPAROUND_FACTOR : Int) else rc1
  if rc = 0 then
    { inner_after := rc
      callback :=
        if free_impl != 0 then
          some (old_ver.object, old_ver.free_context)
        else
          none
      slot_freed := true }
  else
    { inner_after := rc, callback := none, slot_freed := false }

/-- Outcome of `atomsnap_exchange_version_slot` on the targeted control
block and the displaced version (none = `resolve_handle` returned NULL,
no debit). -/
structure ExchangeResult where
  cb_after : Nat
  detach : Option DetachResult
deriving DecidableEq, Repr

/-- `atomsnap_exchange_version_slot` (lines 951-995): atomically exchange
the control block with the new version's handle (outer count implicitly
zero), split the prior word into `(old_refs, old_handle)`, and debit the
displaced version when it resolves.  `slots` maps
(arena base address, slot index) to the slot's current contents. -/
def atomsnap_exchange_version_slot (tbl : ArenaTable)
    (slots : Nat → Nat → AtomsnapVersion) (free_impl : Nat)
    (cb : Nat) (new_ver : Option AtomsnapVersion) : ExchangeResult :=
  let new_handle := version_handle new_ver
  let old_val := cb
  let old_handle := old_val &&& HANDLE_MASK_64
  let old_refs := (old_val &&& REF_COUNT_MASK) >>> REF_COUNT_SHIFT
  match resolve_handle tbl old_handle with
  | none => { cb_after := new_handle, detach := none }
  | some s =>
    { cb_after := new_handle
      detach := some (detach_old_version free_impl (slots s.1 s.2) old_refs) }

/-- The weak-CAS retry loop of `atomsnap_compare_exchange_version_slot`
(lines 1035-1046), driven by the successive control-block values the
loop observes: `current` is the value held in `current_val`, and each
element of `obs` is the refreshed value a failed
`atomic_compare_exchange_weak` writes back into `current_val`.  The CAS
succeeds when no further interference remains; the returned value is the
word the successful CAS atomically replaced. -/
def cas_loop (exp_handle : Nat) : Nat → List Nat → Option Nat
  | current, obs =>
    if current &&& HANDLE_MASK_64 = exp_handle then
      match obs with
      | [] => some current
      | v :: rest => cas_loop exp_handle v rest
    else
      none

/-- Outcome of `atomsnap_compare_exchange_version_slot`: the boolean
result, the word written to the control block (none = not modified), the
word captured by the successful CAS, and the displaced-version debit. -/
structure CmpxchgResult where
  success : Bool
  cb_written : Option Nat
  captured : Option Nat
  detach : Option DetachResult
deriving DecidableEq, Repr

/-- `atomsnap_compare_exchange_version_slot` (lines 1007-1077):
`initial_val` is the acquire-ordered initial load of the control block
and `interference` the values successive failed weak CAS attempts
observe.  Fail when the handle portion differs from the expected
handle, at the initial load or at any re-check; on success write the new
handle and debit the displaced version with the outer count captured by
the successful CAS. -/
def atomsnap_compare_exchange_version_slot (tbl : ArenaTable)
    (slots : Nat → Nat → AtomsnapVersion) (free_impl : Nat)
    (initial_val : Nat) (interference : List Nat)
    (expected new_ver : Option AtomsnapVersion) : CmpxchgResult :=
  let new_handle := version_handle new_ver
  let exp_handle := version_handle expected
  let cur_handle := initial_val &&& HANDLE_MASK_64
  if cur_handle ≠ exp_handle then
    { success := false, cb_written := none, captured := none, detach := none }
  else
    match cas_loop exp_handle initial_val interference with
    | none =>
      { success := false, cb_written := none, captured := none, detach := none }
    | some captured_val =>
      let old_refs := (captured_val &&& REF_COUNT_MASK) >>> REF_COUNT_SHIFT
      match resolve_handle tbl exp_handle with
      | none =>
        { success := true, cb_written := some new_handle
          captured := some captured_val, detach := none }
      | some s =>
        { success := true, cb_written := some new_handle
          captured := some captured_val
          detach := some (detach_old_version free_impl (slots s.1 s.2)
            old_refs) }

/-- Modelled from the spec (section 4.3, detach steps 1-3): the debit a
writer applies to a displaced version, stated in the spec's own words —
mask the wide counter into the outer-count domain, subtract the captured
outer count, and subtract one wrap-around factor exactly when the result
is positive.  Used to compare the code's debit against the claim. -/
def debit_spec (inner : Int) (old_outer : Nat) : Int :=
  let masked : Int := ((toU64 inner &&& WRAPAROUND_MASK : Nat) : Int)
  let r := masked - (old_outer : Int)
  if 0 < r then r - (WRAPAROUND_FACTOR : Int) else r

/-! ### Helper lemmas about the bit-level operations -/

theorem land_mask40_eq_mod (x : Nat) : x &&& HANDLE_MASK_40 = x % 2 ^ 40 := by
  have h : HANDLE_MASK_40 = 2 ^ 40 - 1 := by norm_num [HANDLE_MASK_40]
  rw [h]
  exact Nat.and_pow_two_sub_one_eq_mod x 40

theorem land_mask64_eq_mod (x : Nat) : x &&& HANDLE_MASK_64 = x % 2 ^ 40 := by
  have h : HANDLE_MASK_64 = 2 ^ 40 - 1 := by norm_num [HANDLE_MASK_64]
  rw [h]
  exact Nat.and_pow_two_sub_one_eq_mod x 40

theorem refs_extract_eq (x : Nat) :
    (x &&& REF_COUNT_MASK) >>> REF_COUNT_SHIFT = x / 2 ^ 40 % 2 ^ 24 := by
  have hm : REF_COUNT_MASK = (2 ^ 24 - 1) <<< 40 := by decide
  rw [hm, ← Nat.shiftRight_eq_div_pow, REF_COUNT_SHIFT]
  apply Nat.eq_of_testBit_eq
  intro j
  simp only [Nat.testBit_shiftRight, Nat.testBit_and, Nat.testBit_mod_two_pow,
    Nat.testBit_shiftLeft, Nat.testBit_two_pow_sub_one]
  have h40 : 40 ≤ 40 + j := Nat.le_add_right 40 j
  have hsub : 40 + j - 40 = j := by omega
  simp [h40, hsub, Bool.and_comm]

theorem refs_extract_lt (x : Nat) :
    (x &&& REF_COUNT_MASK) >>> REF_COUNT_SHIFT < 2 ^ 24 := by
  rw [refs_extract_eq]
  exact Nat.mod_lt _ (by norm_num)

theorem refs_extract_eq_div (x : Nat) (hx : x < 2 ^ 64) :
    (x &&& REF_COUNT_MASK) >>> REF_COUNT_SHIFT = x / 2 ^ 40 := by
  rw [refs_extract_eq]
  have : x / 2 ^ 40 < 2 ^ 24 := by omega
  exact Nat.mod_eq_of_lt this

theorem land_depth_mask_eq (x : Nat) :
    x &&& STACK_DEPTH_MASK = x / 2 ^ 40 % 2 ^ 24 * 2 ^ 40 := by
  have hm : STACK_DEPTH_MASK = (2 ^ 24 - 1) <<< 40 := by decide
  rw [hm, ← Nat.shiftLeft_eq, ← Nat.shiftRight_eq_div_pow]
  apply Nat.eq_of_testBit_eq
  intro j
  simp only [Nat.testBit_and, Nat.testBit_shiftLeft, Nat.testBit_two_pow_sub_one,
    Nat.testBit_mod_two_pow, Nat.testBit_shiftRight]
  by_cases h40 : 40 ≤ j
  · have hj : 40 + (j - 40) = j := by omega
    simp [h40, hj, Bool.and_comm, Bool.and_assoc, Bool.and_left_comm]
  · simp [h40]

theorem lor_mul_pow_eq_add (d b : Nat) (hb : b < 2 ^ 40) :
    d * 2 ^ 40 ||| b = d * 2 ^ 40 + b := by
  rw [Nat.mul_comm d (2 ^ 40)]
  exact (Nat.mul_add_lt_is_or hb d).symm

theorem wrap64_eq_self (x : Int) (h1 : -(2 ^ 63) ≤ x) (h2 : x < 2 ^ 63) :
    wrap64 x = x := by
  unfold wrap64
  have h0 : (0 : Int) ≤ x + 2 ^ 63 := by omega
  have hlt : x + 2 ^ 63 < 2 ^ 64 := by omega
  rw [Int.emod_eq_of_lt h0 hlt]
  omega

theorem ofU64_small (n : Nat) (h : n < 2 ^ 63) : ofU64 n = (n : Int) := by
  unfold ofU64
  rw [if_pos h]

theorem toU64_cast (n : Nat) (h : n < 2 ^ 64) : toU64 (n : Int) = n := by
  unfold toU64
  have hlt : (n : Int) < 2 ^ 64 := by exact_mod_cast h
  rw [Int.emod_eq_of_lt (by omega) hlt]
  simp

theorem masked_lt (x : Int) : toU64 x &&& WRAPAROUND_MASK < 2 ^ 24 :=
  Nat.and_lt_two_pow _ (by norm_num [WRAPAROUND_MASK])

theorem int64_and_mask_eq (x : Int) :
    int64_and x (WRAPAROUND_MASK : Int)
      = ((toU64 x &&& WRAPAROUND_MASK : Nat) : Int) := by
  unfold int64_and
  rw [toU64_cast WRAPAROUND_MASK (by norm_num [WRAPAROUND_MASK])]
  exact ofU64_small _ (by have := masked_lt x; omega)

/-- The code's displaced-version debit computes exactly the spec's
mask / subtract / wrap-correct value `debit_spec`, finalizing on 0. -/
theorem detach_old_version_eq (fi : Nat) (v : AtomsnapVersion) (r : Nat)
    (hr : r < 2 ^ 24) :
    detach_old_version fi v r =
      if debit_spec v.inner_ref_cnt r = 0 then
        { inner_after := debit_spec v.inner_ref_cnt r
          callback := if fi != 0 then some (v.object, v.free_context) else none
          slot_freed := true }
      else
        { inner_after := debit_spec v.inner_ref_cnt r, callback := none
          slot_freed := false } := by
  have hmlt := masked_lt v.inner_ref_cnt
  simp only [detach_old_version, debit_spec]
  rw [int64_and_mask_eq]
  rw [show ((WRAPAROUND_FACTOR : Nat) : Int) = (2 ^ 24 : Int) by
    norm_num [WRAPAROUND_FACTOR]]
  set m : Nat := toU64 v.inner_ref_cnt &&& WRAPAROUND_MASK with hm
  have hmi : (m : Int) < 2 ^ 24 := by exact_mod_cast hmlt
  have hri : (r : Int) < 2 ^ 24 := by exact_mod_cast hr
  have hsub1 : int64_sub (m : Int) (r : Int) = (m : Int) - (r : Int) := by
    unfold int64_sub
    apply wrap64_eq_self <;> omega
  rw [hsub1]
  by_cases hpos : (0 : Int) < (m : Int) - (r : Int)
  · have hsub2 : int64_sub ((m : Int) - (r : Int)) (2 ^ 24 : Int)
        = (m : Int) - (r : Int) - 2 ^ 24 := by
      unfold int64_sub
      apply wrap64_eq_self <;> omega
    simp only [if_pos hpos, hsub2]
  · simp only [if_neg hpos]

/-- The spec's debit value never ends positive (detach step 3). -/
theorem debit_spec_nonpos (inner : Int) (r : Nat) (hr : r < 2 ^ 24) :
    debit_spec inner r ≤ 0 := by
  have hmlt := masked_lt inner
  simp only [debit_spec]
  set m : Nat := toU64 inner &&& WRAPAROUND_MASK with hm
  have hmi : (m : Int) < 2 ^ 24 := by exact_mod_cast hmlt
  have hfac : ((WRAPAROUND_FACTOR : Nat) : Int) = 2 ^ 24 := by
    norm_num [WRAPAROUND_FACTOR]
  rw [hfac]
  by_cases hpos : (0 : Int) < (m : Int) - (r : Int)
  · rw [if_pos hpos]
    omega
  · rw [if_neg hpos]
    omega

/-- The debit applied by both writer entry points matches the spec's
mask / subtract / wrap-correct description, never ends positive, and
finalizes the displaced version exactly when it ends at 0. -/
theorem detach_old_version_spec (fi : Nat) (v : AtomsnapVersion) (r : Nat)
    (hr : r < 2 ^ 24) :
    (detach_old_version fi v r).inner_after = debit_spec v.inner_ref_cnt r ∧
    (detach_old_version fi v r).inner_after ≤ 0 ∧
    ((detach_old_version fi v r).slot_freed = true ↔
      (detach_old_version fi v r).inner_after = 0) ∧
    ((detach_old_version fi v r).callback.isSome = true ↔
      ((detach_old_version fi v r).inner_after = 0 ∧ fi ≠ 0)) := by
  rw [detach_old_version_eq fi v r hr]
  have h0 := debit_spec_nonpos v.inner_ref_cnt r hr
  by_cases hz : debit_spec v.inner_ref_cnt r = 0
  · simp only [if_pos hz]
    refine ⟨trivial, h0, by simp [hz], ?_⟩
    by_cases hfi0 : fi = 0 <;> simp [hfi0, hz]
  · simp only [if_neg hz]
    exact ⟨trivial, h0, by simp [hz], by simp [hz]⟩

/-! ### Concrete fixtures used by witnesses and counterexamples -/

/-- A gate with a non-NULL free callback, as `atomsnap_init_gate` builds it. -/
def gateW : AtomsnapGate :=
  { control_block := HANDLE_NULL, extra_control_blocks := [],
    num_extra_slots := 0, free_impl := 1 }

/-- A version whose `object` field is NULL. -/
def vNullObject : AtomsnapVersion :=
  { object := none, free_context := some 9, gate := some gateW,
    inner_ref_cnt := 0, link_handle := 1 }

/-- A version whose inner counter holds -1 (one reader outstanding after
the writer debit). -/
def vMinusOne : AtomsnapVersion :=
  { object := some 5, free_context := none, gate := some gateW,
    inner_ref_cnt := -1, link_handle := 1 }

/-- A freshly popped slot with stale field contents. -/
def slotW : AtomsnapVersion :=
  { object := some 3, free_context := some 4, gate := none,
    inner_ref_cnt := 7, link_handle := 2 }

/-! ### Claim theorems -/

/-- Claim C10: every public operation taking a version or gate pointer is
total on NULL: `release_version(NULL)` and `free_version(NULL)` return
without invoking any callback or touching any state, `get_object(NULL)`
returns NULL, `set_object(NULL, o, c)` is a no-op, and
`destroy_gate(NULL)` returns without freeing anything. -/
theorem claim_C10_null_safety :
    atomsnap_release_version none
      = { inner_after := none, callback := none, slot_freed := false } ∧
    atomsnap_free_version none = { callback := none, slot_freed := false } ∧
    atomsnap_get_object none = none ∧
    (∀ o c : Option Nat, atomsnap_set_object none o c = none) ∧
    atomsnap_destroy_gate none
      = { freed_extra_blocks := false, freed_gate := false } :=
  ⟨rfl, rfl, rfl, fun _ _ => rfl, rfl⟩

/-- Claim C5 (counterexample): `atomsnap_free_version` on a never-published
version whose `object` field is NULL does NOT invoke the user free
callback (the code guards the call on `version->object` being non-NULL),
contradicting the claim that the callback runs regardless of the object
value; the slot is still returned to the free-stack. -/
theorem claim_C5_counterexample :
    (atomsnap_free_version (some vNullObject)).callback = none ∧
    (atomsnap_free_version (some vNullObject)).slot_freed = true := by
  decide

/-- Claim C5 (amended): for a non-NULL never-published version,
`free_version` always returns the slot to the free-stack, and invokes the
user free callback exactly once — with the version's object and
free-context — if and only if the version's object, gate back-link and
the gate's `free_impl` are all non-NULL. -/
theorem claim_C5_free_version (v : AtomsnapVersion) :
    (atomsnap_free_version (some v)).slot_freed = true ∧
    ((atomsnap_free_version (some v)).callback.isSome = true ↔
      (v.object.isSome = true ∧ v.gate.isSome = true ∧
        gate_free_impl v.gate ≠ 0)) ∧
    ((atomsnap_free_version (some v)).callback.isSome = true →
      (atomsnap_free_version (some v)).callback
        = some (v.object, v.free_context)) := by
  simp only [atomsnap_free_version]
  by_cases h : (v.object.isSome && v.gate.isSome
      && (gate_free_impl v.gate != 0)) = true
  · rw [if_pos h]
    simp only [Bool.and_eq_true, bne_iff_ne] at h
    simp [h]
  · rw [if_neg h]
    simp only [Bool.and_eq_true, bne_iff_ne] at h
    refine ⟨rfl, ⟨?_, ?_⟩, ?_⟩
    · intro hfalse
      simp at hfalse
    · intro hall
      exact absurd ⟨⟨hall.1, hall.2.1⟩, hall.2.2⟩ h
    · intro hfalse
      simp at hfalse

/-- Claim C5 (amended) witness at a concrete version with every guard
satisfied. -/
theorem claim_C5_free_version_witness :
    (atomsnap_free_version (some vMinusOne)).callback.isSome = true →
      (atomsnap_free_version (some vMinusOne)).callback
        = some (some 5, none) :=
  (claim_C5_free_version vMinusOne).2.2

/-- Claim C2 (counterexample): `atomsnap_release_version` has no DETACHED
or FINALIZED flag and no CAS: releasing a version whose inner counter is
-1 finalizes it (callback invoked, slot returned) while the
post-increment inner state is exactly 0, i.e. no bit of the inner state
is set, so finalization does not require any flag bit to be set. -/
theorem claim_C2_counterexample :
    (atomsnap_release_version (some vMinusOne)).slot_freed = true ∧
    (atomsnap_release_version (some vMinusOne)).inner_after = some 0 ∧
    (atomsnap_release_version (some vMinusOne)).callback
      = some (some 5, none) := by
  decide

/-- Claim C2 (amended): releasing a non-NULL version increments the inner
counter by 1 (with release ordering; the increment wraps only at the
int64 boundary), and the version is finalized — user callback invoked
when the gate link and its `free_impl` are non-NULL, slot returned —
exactly when the post-increment value is 0; the writer's debit drives
the counter negative, so a 0 post-value simultaneously encodes balance
and detachment, and no separate flag or CAS exists. -/
theorem claim_C2_release (v : AtomsnapVersion) :
    (atomsnap_release_version (some v)).inner_after
      = some (int64_add v.inner_ref_cnt 1) ∧
    ((atomsnap_release_version (some v)).slot_freed = true ↔
      int64_add v.inner_ref_cnt 1 = 0) ∧
    ((atomsnap_release_version (some v)).callback.isSome = true ↔
      (int64_add v.inner_ref_cnt 1 = 0 ∧ v.gate.isSome = true ∧
        gate_free_impl v.gate ≠ 0)) ∧
    (-(2 ^ 63) ≤ v.inner_ref_cnt → v.inner_ref_cnt < 2 ^ 63 - 1 →
      int64_add v.inner_ref_cnt 1 = v.inner_ref_cnt + 1) := by
  have hinc : ∀ h1 : -(2 ^ 63) ≤ v.inner_ref_cnt,
      v.inner_ref_cnt < 2 ^ 63 - 1 →
      int64_add v.inner_ref_cnt 1 = v.inner_ref_cnt + 1 := by
    intro h1 h2
    unfold int64_add
    apply wrap64_eq_self <;> omega
  simp only [atomsnap_release_version]
  by_cases hz : int64_add v.inner_ref_cnt 1 = 0
  · rw [if_pos hz]
    refine ⟨rfl, by simp [hz], ?_, hinc⟩
    by_cases hg : (v.gate.isSome && (gate_free_impl v.gate != 0)) = true
    · rw [if_pos hg]
      simp only [Bool.and_eq_true, bne_iff_ne] at hg
      simp [hz, hg]
    · rw [if_neg hg]
      simp only [Bool.and_eq_true, bne_iff_ne] at hg
      constructor
      · intro hfalse
        simp at hfalse
      · intro hall
        exact absurd ⟨hall.2.1, hall.2.2⟩ hg
  · rw [if_neg hz]
    refine ⟨rfl, by simp [hz], by simp [hz], hinc⟩

/-- Claim C6: `make_version` returns NULL exactly on thread-context or
slot-allocation failure; otherwise the returned version has the gate
back-link set, `object` and `free_context` NULL, and inner state 0. -/
theorem claim_C6_make_version (ctxOk : Bool) (h : Nat)
    (gate : Option AtomsnapGate) (slot : AtomsnapVersion) :
    (ctxOk = false → atomsnap_make_version ctxOk h gate slot = none) ∧
    (h = HANDLE_NULL → atomsnap_make_version ctxOk h gate slot = none) ∧
    (ctxOk = true → h ≠ HANDLE_NULL →
      atomsnap_make_version ctxOk h gate slot
        = some { slot with object := none, free_context := none,
                           gate := gate, inner_ref_cnt := 0 }) := by
  unfold atomsnap_make_version
  refine ⟨fun hc => by simp [hc], fun hh => ?_, fun hc hh => by simp [hc, hh]⟩
  cases ctxOk <;> simp [hh]

/-- Claim C6 witness: a successful allocation initializes the fields. -/
theorem claim_C6_make_version_witness :
    atomsnap_make_version true 2 (some gateW) slotW
      = some { slotW with object := none, free_context := none,
                          gate := some gateW, inner_ref_cnt := 0 } :=
  (claim_C6_make_version true 2 (some gateW) slotW).2.2 rfl (by decide)

/-- `resolve_handle` phrased through the decoded bit fields. -/
theorem resolve_handle_eq (tbl : ArenaTable) (x : Nat) :
    resolve_handle tbl x =
      if x % 2 ^ 40 = HANDLE_NULL then none
      else
        match tbl (decode_handle (x % 2 ^ 40)).thread_idx
            (decode_handle (x % 2 ^ 40)).arena_idx with
        | none => none
        | some arena => some (arena, (decode_handle (x % 2 ^ 40)).slot_idx) := by
  unfold resolve_handle
  rw [land_mask40_eq_mod]

/-- Claim C7: `init_gate` fails (NULL, no gate left allocated) when the
supplied `free_impl` is NULL; on success the primary control block and
every extra control block hold the NULL-handle word — the all-ones
40-bit sentinel with zero upper 24 bits — and the gate stores the
supplied `free_impl`. -/
theorem claim_C7_init_gate (a e : Bool) (ctx : AtomsnapInitContext) :
    (ctx.free_impl = 0 → atomsnap_init_gate a e ctx = none) ∧
    HANDLE_NULL = 2 ^ 40 - 1 ∧
    HANDLE_NULL / 2 ^ 40 = 0 ∧
    (∀ g, atomsnap_init_gate a e ctx = some g →
      g.free_impl = ctx.free_impl ∧
      g.control_block = HANDLE_NULL ∧
      (∀ b ∈ g.extra_control_blocks, b = HANDLE_NULL) ∧
      g.extra_control_blocks.length = ctx.num_extra_control_blocks.toNat) := by
  refine ⟨?_, by norm_num [HANDLE_NULL], by norm_num [HANDLE_NULL], ?_⟩
  · intro h0
    unfold atomsnap_init_gate
    cases a <;> simp [h0]
  · intro g hg
    unfold atomsnap_init_gate at hg
    cases a with
    | false => simp at hg
    | true =>
      by_cases h0 : ctx.free_impl = 0
      · simp [h0] at hg
      by_cases hn : 0 < ctx.num_extra_control_blocks
      · cases e with
        | false => simp [h0, hn] at hg
        | true =>
          simp only [h0, hn, if_true, if_false, if_neg, reduceCtorEq] at hg
          simp [h0, hn] at hg
          rw [← hg]
          refine ⟨rfl, rfl, ?_, ?_⟩
          · intro b hb
            exact List.eq_of_mem_replicate hb
          · exact List.length_replicate _ _
      · simp [h0, hn] at hg
        rw [← hg]
        refine ⟨rfl, rfl, by simp, ?_⟩
        simp only [List.length_nil]
        omega

/-- Claim C7 witness: a successful two-extra-block initialization. -/
theorem claim_C7_init_gate_witness :
    (⟨HANDLE_NULL, List.replicate 2 HANDLE_NULL, 2, 1⟩
      : AtomsnapGate).free_impl = 1 ∧
    (⟨HANDLE_NULL, List.replicate 2 HANDLE_NULL, 2, 1⟩
      : AtomsnapGate).control_block = HANDLE_NULL ∧
    (⟨HANDLE_NULL, List.replicate 2 HANDLE_NULL, 2, 1⟩
      : AtomsnapGate).extra_control_blocks.length = 2 :=
  have h := (claim_C7_init_gate true true
    { free_impl := 1, num_extra_control_blocks := 2 }).2.2.2
    (⟨HANDLE_NULL, List.replicate 2 HANDLE_NULL, 2, 1⟩ : AtomsnapGate)
    (by decide)
  ⟨h.1, h.2.1, h.2.2.2⟩

/-- `resolve_handle` on an already-clean 40-bit word. -/
theorem resolve_handle_mod_eq (tbl : ArenaTable) (x : Nat) (hx : x < 2 ^ 40) :
    resolve_handle tbl x =
      if x = HANDLE_NULL then none
      else
        match tbl (decode_handle x).thread_idx (decode_handle x).arena_idx with
        | none => none
        | some arena => some (arena, (decode_handle x).slot_idx) := by
  rw [resolve_handle_eq, Nat.mod_eq_of_lt hx]

/-- Claim C3: `acquire_version_slot` performs one fetch-and-add of
`1 << 40` on the slot's control block, takes the handle from the lower
40 bits of the pre-add value that same atomic returned, and resolves it
through the global arena table; the result is NULL exactly when the
handle is the all-ones sentinel or the handle's arena-table entry is
unset. -/
theorem claim_C3_acquire (tbl : ArenaTable) (cb : Nat) :
    (atomsnap_acquire_version_slot tbl cb).cb_after
      = (cb + 2 ^ 40) % 2 ^ 64 ∧
    (atomsnap_acquire_version_slot tbl cb).acquired
      = resolve_handle tbl (cb % 2 ^ 40) ∧
    ((atomsnap_acquire_version_slot tbl cb).acquired = none ↔
      (cb % 2 ^ 40 = HANDLE_NULL ∨
        tbl (decode_handle (cb % 2 ^ 40)).thread_idx
          (decode_handle (cb % 2 ^ 40)).arena_idx = none)) ∧
    (∀ s, (atomsnap_acquire_version_slot tbl cb).acquired = some s →
      cb % 2 ^ 40 ≠ HANDLE_NULL ∧
      tbl (decode_handle (cb % 2 ^ 40)).thread_idx
        (decode_handle (cb % 2 ^ 40)).arena_idx = some s.1 ∧
      s.2 = (decode_handle (cb % 2 ^ 40)).slot_idx) := by
  have hinc : REF_COUNT_INC = 2 ^ 40 := by
    unfold REF_COUNT_INC REF_COUNT_SHIFT
    exact Nat.one_shiftLeft 40
  have hmod : cb % 2 ^ 40 < 2 ^ 40 := Nat.mod_lt _ (by norm_num)
  simp only [atomsnap_acquire_version_slot, hinc, land_mask64_eq_mod]
  refine ⟨True.intro, True.intro, ?_, ?_⟩
  · rw [resolve_handle_mod_eq tbl _ hmod]
    by_cases hn : cb % 2 ^ 40 = HANDLE_NULL
    · rw [if_pos hn]
      exact ⟨fun _ => Or.inl hn, fun _ => rfl⟩
    · rw [if_neg hn]
      cases htbl : tbl (decode_handle (cb % 2 ^ 40)).thread_idx
          (decode_handle (cb % 2 ^ 40)).arena_idx with
      | none =>
        exact ⟨fun _ => Or.inr rfl, fun _ => rfl⟩
      | some arena =>
        constructor
        · intro h
          exact absurd h (by simp)
        · intro h
          rcases h with h | h
          · exact absurd h hn
          · exact absurd h (by simp)
  · intro s hs
    rw [resolve_handle_mod_eq tbl _ hmod] at hs
    by_cases hn : cb % 2 ^ 40 = HANDLE_NULL
    · rw [if_pos hn] at hs
      exact absurd hs (by simp)
    · rw [if_neg hn] at hs
      cases htbl : tbl (decode_handle (cb % 2 ^ 40)).thread_idx
          (decode_handle (cb % 2 ^ 40)).arena_idx with
      | none =>
        rw [htbl] at hs
        exact absurd hs (by simp)
      | some arena =>
        rw [htbl] at hs
        have heq := Option.some.inj hs
        subst heq
        exact ⟨hn, rfl, rfl⟩

/-- Arena table with one live entry, for the claim witnesses. -/
def tblW : ArenaTable :=
  fun tid aid => if tid = 0 ∧ aid = 0 then some 11 else none

/-- Claim C3 witness: a concrete acquire on control block
`[outer=3 | handle=1]` over a one-entry arena table. -/
theorem claim_C3_acquire_witness :
    (3 * 2 ^ 40 + 1) % 2 ^ 40 ≠ HANDLE_NULL ∧
    tblW (decode_handle ((3 * 2 ^ 40 + 1) % 2 ^ 40)).thread_idx
      (decode_handle ((3 * 2 ^ 40 + 1) % 2 ^ 40)).arena_idx
        = some ((11, 1) : Nat × Nat).1 ∧
    ((11, 1) : Nat × Nat).2
      = (decode_handle ((3 * 2 ^ 40 + 1) % 2 ^ 40)).slot_idx :=
  (claim_C3_acquire tblW (3 * 2 ^ 40 + 1)).2.2.2 (11, 1) (by decide)

/-- Closed form of the new free-stack head written by `free_slot`. -/
theorem free_slot_top_after_eq (self old_top : Nat) (hs : self < 2 ^ 40)
    (ht : old_top < 2 ^ 64) :
    (free_slot self old_top).top_after
      = (old_top / 2 ^ 40 + 1) % 2 ^ 24 * 2 ^ 40 + self := by
  have hdinc : STACK_DEPTH_INC = 2 ^ 40 := by
    unfold STACK_DEPTH_INC STACK_DEPTH_SHIFT
    exact Nat.one_shiftLeft 40
  simp only [free_slot, land_depth_mask_eq, hdinc]
  have hq : old_top / 2 ^ 40 % 2 ^ 24 = old_top / 2 ^ 40 :=
    Nat.mod_eq_of_lt (by omega)
  rw [hq]
  have h1 : old_top / 2 ^ 40 * 2 ^ 40 + 2 ^ 40
      = (old_top / 2 ^ 40 + 1) * 2 ^ 40 := by ring
  rw [h1]
  have h2 : (old_top / 2 ^ 40 + 1) * 2 ^ 40 % 2 ^ 64
      = (old_top / 2 ^ 40 + 1) % 2 ^ 24 * 2 ^ 40 := by
    have h64 : (2 : Nat) ^ 64 = 2 ^ 24 * 2 ^ 40 := by norm_num
    rw [h64, Nat.mul_mod_mul_right]
  rw [h2]
  exact lor_mul_pow_eq_add _ _ hs

/-- Claim C9: `free_slot` pushes the slot onto its arena's free-stack:
the new head carries the old depth tag plus one (mod 2^24) in its upper
24 bits and the slot's own handle in its lower 40 bits, and the slot's
`next_handle` receives the entire prior 64-bit head, depth tag
included. -/
theorem claim_C9_free_slot (self old_top : Nat) (hs : self < 2 ^ 40)
    (ht : old_top < 2 ^ 64) :
    (free_slot self old_top).next_stored = old_top ∧
    (free_slot self old_top).top_after % 2 ^ 40 = self ∧
    (free_slot self old_top).top_after / 2 ^ 40
      = (old_top / 2 ^ 40 + 1) % 2 ^ 24 := by
  refine ⟨rfl, ?_, ?_⟩ <;> rw [free_slot_top_after_eq self old_top hs ht] <;>
    omega

/-- Claim C9 witness: push slot handle 1 onto a stack whose head has
depth tag 5 and handle 2. -/
theorem claim_C9_free_slot_witness :
    (free_slot 1 (5 * 2 ^ 40 + 2)).next_stored = 5 * 2 ^ 40 + 2 ∧
    (free_slot 1 (5 * 2 ^ 40 + 2)).top_after % 2 ^ 40 = 1 ∧
    (free_slot 1 (5 * 2 ^ 40 + 2)).top_after / 2 ^ 40
      = ((5 * 2 ^ 40 + 2) / 2 ^ 40 + 1) % 2 ^ 24 :=
  claim_C9_free_slot 1 (5 * 2 ^ 40 + 2) (by norm_num) (by norm_num)

/-- `construct_handle` in closed arithmetic form on in-range fields. -/
theorem construct_handle_eq (tid aid sid : Nat) (htid : tid < 2 ^ 20)
    (haid : aid < 2 ^ 6) (hsid : sid < 2 ^ 14) :
    construct_handle tid aid sid = sid + aid * 2 ^ 14 + tid * 2 ^ 20 := by
  unfold construct_handle HANDLE_SLOT_BITS HANDLE_ARENA_BITS HANDLE_THREAD_BITS
  norm_num
  omega

/-- The decoded fields of a handle, in closed form. -/
theorem decode_handle_fields (h : Nat) :
    (decode_handle h).slot_idx = h % 2 ^ 14 ∧
    (decode_handle h).arena_idx = h / 2 ^ 14 % 2 ^ 6 ∧
    (decode_handle h).thread_idx = h / 2 ^ 20 % 2 ^ 20 := by
  unfold decode_handle HANDLE_SLOT_BITS HANDLE_ARENA_BITS HANDLE_THREAD_BITS
  norm_num

/-- Claim C8: a handle packs `slot_idx(14) | arena_idx(6) | thread_idx(20)`
from the least-significant bit up; the all-ones 40-bit value resolves to
NULL under any depth tag; and constructing a handle from a valid triple
and resolving it (under any depth tag in the upper 24 bits) yields
exactly slot `slot_idx` of the arena stored at
`arena_table[thread_idx][arena_idx]`. -/
theorem claim_C8_handle_roundtrip (tbl : ArenaTable)
    (tid aid sid a tag : Nat) (htid : tid < MAX_THREADS)
    (haid : aid < 2 ^ 6) (hsid : sid < 2 ^ 14)
    (ha : tbl tid aid = some a) :
    construct_handle tid aid sid < 2 ^ 40 ∧
    construct_handle tid aid sid ≠ HANDLE_NULL ∧
    (∀ t, resolve_handle tbl (HANDLE_NULL + t * 2 ^ 40) = none) ∧
    resolve_handle tbl (construct_handle tid aid sid + tag * 2 ^ 40)
      = some (a, sid) := by
  have hMT : MAX_THREADS = 1048575 := rfl
  have hHN : HANDLE_NULL = 1099511627775 := rfl
  have htid3 : tid < 1048575 := hMT ▸ htid
  have htid2 : tid < 2 ^ 20 := by omega
  have hch := construct_handle_eq tid aid sid htid2 haid hsid
  have hlt : construct_handle tid aid sid < 2 ^ 40 := by
    rw [hch]
    omega
  have hne : construct_handle tid aid sid ≠ HANDLE_NULL := by
    rw [hch, hHN]
    omega
  refine ⟨hlt, hne, ?_, ?_⟩
  · intro t
    rw [resolve_handle_eq]
    have hc : (HANDLE_NULL + t * 2 ^ 40) % 2 ^ 40 = HANDLE_NULL := by
      rw [hHN]
      omega
    rw [if_pos hc]
  · rw [resolve_handle_eq]
    have hmod : (construct_handle tid aid sid + tag * 2 ^ 40) % 2 ^ 40
        = construct_handle tid aid sid := by
      omega
    rw [hmod, if_neg hne]
    have hdec := decode_handle_fields (construct_handle tid aid sid)
    have hti : (decode_handle (construct_handle tid aid sid)).thread_idx
        = tid := by
      rw [hdec.2.2, hch]
      omega
    have hai : (decode_handle (construct_handle tid aid sid)).arena_idx
        = aid := by
      rw [hdec.2.1, hch]
      omega
    have hsi : (decode_handle (construct_handle tid aid sid)).slot_idx
        = sid := by
      rw [hdec.1, hch]
      omega
    rw [hti, hai, ha, hsi]

/-- Claim C8 witness: round-trip the triple (0, 0, 1) with depth tag 7
through the one-entry table. -/
theorem claim_C8_handle_roundtrip_witness :
    resolve_handle tblW (construct_handle 0 0 1 + 7 * 2 ^ 40)
      = some (11, 1) :=
  (claim_C8_handle_roundtrip tblW 0 0 1 11 7 (by norm_num [MAX_THREADS])
    (by norm_num) (by norm_num) (by decide)).2.2.2

theorem cas_loop_nil (exp current : Nat) :
    cas_loop exp current [] =
      if current &&& HANDLE_MASK_64 = exp then some current else none := rfl

theorem cas_loop_cons (exp current v : Nat) (rest : List Nat) :
    cas_loop exp current (v :: rest) =
      if current &&& HANDLE_MASK_64 = exp then cas_loop exp v rest
      else none := rfl

/-- The CAS retry loop succeeds — capturing the last observed word —
exactly when every observed word still carries the expected handle, and
fails (returning `none`) as soon as any re-check sees a different
handle. -/
theorem cas_loop_characterization (exp : Nat) :
    ∀ (obs : List Nat) (current : Nat),
    cas_loop exp current obs =
      if ∀ v ∈ current :: obs, v &&& HANDLE_MASK_64 = exp then
        (current :: obs).getLast?
      else none
  | [], current => by
    rw [cas_loop_nil]
    by_cases h : current &&& HANDLE_MASK_64 = exp
    · rw [if_pos h, if_pos]
      · rfl
      · intro v hv
        simp only [List.mem_singleton] at hv
        rw [hv]
        exact h
    · rw [if_neg h, if_neg]
      intro hall
      exact h (hall current (by simp))
  | v :: rest, current => by
    rw [cas_loop_cons]
    by_cases h : current &&& HANDLE_MASK_64 = exp
    · rw [if_pos h, cas_loop_characterization exp rest v]
      by_cases hall : ∀ w ∈ v :: rest, w &&& HANDLE_MASK_64 = exp
      · rw [if_pos hall, if_pos, List.getLast?_cons_cons]
        intro w hw
        rcases List.mem_cons.mp hw with hw1 | hw2
        · rw [hw1]
          exact h
        · exact hall w hw2
      · rw [if_neg hall, if_neg]
        intro hall2
        exact hall fun w hw => hall2 w (List.mem_cons_of_mem _ hw)
    · rw [if_neg h, if_neg]
      intro hall
      exact h (hall current (by simp))

/-- Debit properties under a non-NULL `free_impl` (always true for a
gate built by `atomsnap_init_gate`). -/
theorem detach_old_version_props (fi : Nat) (v : AtomsnapVersion) (r : Nat)
    (hr : r < 2 ^ 24) (hfi : fi ≠ 0) :
    (detach_old_version fi v r).inner_after ≤ 0 ∧
    ((detach_old_version fi v r).slot_freed = true ↔
      (detach_old_version fi v r).inner_after = 0) ∧
    ((detach_old_version fi v r).callback.isSome = true ↔
      (detach_old_version fi v r).inner_after = 0) := by
  obtain ⟨-, h2, h3, h4⟩ := detach_old_version_spec fi v r hr
  exact ⟨h2, h3, ⟨fun h => (h4.mp h).1, fun h => h4.mpr ⟨h, hfi⟩⟩⟩

/-- `resolve_handle` is NULL on the sentinel. -/
theorem resolve_handle_null (tbl : ArenaTable) (x : Nat)
    (hx : x % 2 ^ 40 = HANDLE_NULL) : resolve_handle tbl x = none := by
  rw [resolve_handle_eq, if_pos hx]

/-- Claim C1: exchange atomically replaces the control block with
`[outer=0 | new_handle]`, takes `(old_outer, old_handle)` from the
single prior word, and — when the displaced handle resolves — debits the
displaced version by masking its inner counter to the 24-bit domain,
subtracting `old_outer`, and subtracting one wrap-around factor exactly
when the result was positive; the corrected result is ≤ 0, and the user
free callback runs and the slot is freed iff it is exactly 0.  A NULL
displaced handle is not debited.  A successful compare-exchange applies
the identical debit with the same guarantees. -/
theorem claim_C1_exchange_debit (tbl : ArenaTable)
    (slots : Nat → Nat → AtomsnapVersion) (fi cb : Nat)
    (new_ver : Option AtomsnapVersion)
    (hcb : cb < 2 ^ 64) (hnh : version_handle new_ver < 2 ^ 40)
    (hfi : fi ≠ 0) :
    (atomsnap_exchange_version_slot tbl slots fi cb new_ver).cb_after
      = version_handle new_ver ∧
    (atomsnap_exchange_version_slot tbl slots fi cb new_ver).cb_after
        / 2 ^ 40 = 0 ∧
    (cb % 2 ^ 40 = HANDLE_NULL →
      (atomsnap_exchange_version_slot tbl slots fi cb new_ver).detach
        = none) ∧
    (∀ s, resolve_handle tbl (cb % 2 ^ 40) = some s →
      (atomsnap_exchange_version_slot tbl slots fi cb new_ver).detach
        = some (detach_old_version fi (slots s.1 s.2) (cb / 2 ^ 40)) ∧
      (detach_old_version fi (slots s.1 s.2) (cb / 2 ^ 40)).inner_after
        = debit_spec (slots s.1 s.2).inner_ref_cnt (cb / 2 ^ 40) ∧
      (detach_old_version fi (slots s.1 s.2) (cb / 2 ^ 40)).inner_after
        ≤ 0 ∧
      ((detach_old_version fi (slots s.1 s.2) (cb / 2 ^ 40)).slot_freed
          = true ↔
        (detach_old_version fi (slots s.1 s.2) (cb / 2 ^ 40)).inner_after
          = 0) ∧
      ((detach_old_version fi (slots s.1 s.2) (cb / 2 ^ 40)).callback.isSome
          = true ↔
        (detach_old_version fi (slots s.1 s.2) (cb / 2 ^ 40)).inner_after
          = 0)) ∧
    (∀ ival obs expected d,
      (atomsnap_compare_exchange_version_slot tbl slots fi ival obs expected
          new_ver).detach = some d →
      d.inner_after ≤ 0 ∧ (d.slot_freed = true ↔ d.inner_after = 0) ∧
      (d.callback.isSome = true ↔ d.inner_after = 0)) := by
  have hr : cb / 2 ^ 40 < 2 ^ 24 := by omega
  have hcmp : ∀ (ival : Nat) (obs : List Nat)
      (expected : Option AtomsnapVersion) (d : DetachResult),
      (atomsnap_compare_exchange_version_slot tbl slots fi ival obs expected
          new_ver).detach = some d →
      d.inner_after ≤ 0 ∧ (d.slot_freed = true ↔ d.inner_after = 0) ∧
      (d.callback.isSome = true ↔ d.inner_after = 0) := by
    intro ival obs expected d hd
    simp only [atomsnap_compare_exchange_version_slot] at hd
    split at hd
    · exact absurd hd (by simp)
    · split at hd
      · exact absurd hd (by simp)
      next c hc =>
        split at hd
        · exact absurd hd (by simp)
        next s hs =>
          have hdd := Option.some.inj hd
          rw [← hdd]
          exact detach_old_version_props fi (slots s.1 s.2) _
            (refs_extract_lt c) hfi
  have hdiv0 : version_handle new_ver / 2 ^ 40 = 0 := by omega
  have hex : atomsnap_exchange_version_slot tbl slots fi cb new_ver =
      (match resolve_handle tbl (cb % 2 ^ 40) with
        | none =>
          ({ cb_after := version_handle new_ver, detach := none }
            : ExchangeResult)
        | some s =>
          { cb_after := version_handle new_ver
            detach := some (detach_old_version fi (slots s.1 s.2)
              (cb / 2 ^ 40)) }) := by
    simp only [atomsnap_exchange_version_slot, land_mask64_eq_mod,
      refs_extract_eq_div cb hcb]
  rw [hex]
  cases hres : resolve_handle tbl (cb % 2 ^ 40) with
  | none =>
    refine ⟨rfl, hdiv0, fun _ => rfl, ?_, hcmp⟩
    intro s hs
    exact absurd hs (by simp)
  | some s0 =>
    refine ⟨rfl, hdiv0, ?_, ?_, hcmp⟩
    · intro hnull
      have hnone := resolve_handle_null tbl (cb % 2 ^ 40)
        (by rw [Nat.mod_mod_of_dvd cb dvd_rfl]; exact hnull)
      rw [hres] at hnone
      exact absurd hnone (by simp)
    · intro s hs
      have hs0 : s0 = s := Option.some.inj hs
      subst hs0
      obtain ⟨h1, h2, h3, h4⟩ :=
        detach_old_version_spec fi (slots s0.1 s0.2) (cb / 2 ^ 40) hr
      exact ⟨rfl, h1, h2, h3,
        ⟨fun h => (h4.mp h).1, fun h => h4.mpr ⟨h, hfi⟩⟩⟩

/-- A version holding two outstanding references worth of releases. -/
def vInnerTwo : AtomsnapVersion :=
  { object := some 7, free_context := none, gate := some gateW,
    inner_ref_cnt := 2, link_handle := 1 }

/-- Slot storage resolving every slot to `vInnerTwo`. -/
def slotsC1 : Nat → Nat → AtomsnapVersion := fun _ _ => vInnerTwo

/-- Claim C1 witness: exchange over control block `[outer=2 | handle=1]`
resolving through the one-entry table debits the displaced slot. -/
theorem claim_C1_exchange_debit_witness :
    (atomsnap_exchange_version_slot tblW slotsC1 1 (2 * 2 ^ 40 + 1)
        none).detach
      = some (detach_old_version 1 (slotsC1 11 1)
        ((2 * 2 ^ 40 + 1) / 2 ^ 40)) :=
  ((claim_C1_exchange_debit tblW slotsC1 1 (2 * 2 ^ 40 + 1) none
      (by norm_num) (by decide) (by norm_num)).2.2.2.1
    (11, 1) (by decide)).1

/-- Claim C4: compare-exchange returns false, leaving the control block
unmodified, exactly when the handle portion differs from the expected
handle at the initial load or at any re-check after a failed weak CAS;
on success it writes `[outer=0 | new_handle]`, and the outer refcount
used for the displaced version's debit comes from the word captured by
the successful CAS itself — the last observed value — not a stale
earlier load. -/
theorem claim_C4_cmpxchg (tbl : ArenaTable)
    (slots : Nat → Nat → AtomsnapVersion) (fi initial : Nat)
    (obs : List Nat) (expected new_ver : Option AtomsnapVersion)
    (hnh : version_handle new_ver < 2 ^ 40)
    (hvals : ∀ v ∈ initial :: obs, v < 2 ^ 64) :
    ((atomsnap_compare_exchange_version_slot tbl slots fi initial obs
        expected new_ver).success = true ↔
      ∀ v ∈ initial :: obs, v % 2 ^ 40 = version_handle expected) ∧
    ((atomsnap_compare_exchange_version_slot tbl slots fi initial obs
        expected new_ver).success = false →
      (atomsnap_compare_exchange_version_slot tbl slots fi initial obs
        expected new_ver).cb_written = none ∧
      (atomsnap_compare_exchange_version_slot tbl slots fi initial obs
        expected new_ver).detach = none) ∧
    ((atomsnap_compare_exchange_version_slot tbl slots fi initial obs
        expected new_ver).success = true →
      (atomsnap_compare_exchange_version_slot tbl slots fi initial obs
        expected new_ver).cb_written = some (version_handle new_ver) ∧
      version_handle new_ver / 2 ^ 40 = 0 ∧
      (atomsnap_compare_exchange_version_slot tbl slots fi initial obs
        expected new_ver).captured = (initial :: obs).getLast? ∧
      (∀ c, (initial :: obs).getLast? = some c →
        (resolve_handle tbl (version_handle expected) = none →
          (atomsnap_compare_exchange_version_slot tbl slots fi initial obs
            expected new_ver).detach = none) ∧
        (∀ s, resolve_handle tbl (version_handle expected) = some s →
          (atomsnap_compare_exchange_version_slot tbl slots fi initial obs
            expected new_ver).detach
            = some (detach_old_version fi (slots s.1 s.2) (c / 2 ^ 40))))) := by
  have hdiv0 : version_handle new_ver / 2 ^ 40 = 0 := by omega
  have hiff : (∀ v ∈ initial :: obs, v &&& HANDLE_MASK_64
      = version_handle expected) ↔
      (∀ v ∈ initial :: obs, v % 2 ^ 40 = version_handle expected) := by
    simp only [land_mask64_eq_mod]
  by_cases hall : ∀ v ∈ initial :: obs,
      v &&& HANDLE_MASK_64 = version_handle expected
  · have hinit : initial &&& HANDLE_MASK_64 = version_handle expected :=
      hall initial (by simp)
    have hloop :=
      cas_loop_characterization (version_handle expected) obs initial
    rw [if_pos hall] at hloop
    obtain ⟨c, hc⟩ : ∃ c, (initial :: obs).getLast? = some c :=
      ⟨(initial :: obs).getLast (by simp),
        List.getLast?_eq_getLast (initial :: obs) (by simp)⟩
    have hcmem : c ∈ initial :: obs := List.mem_of_getLast?_eq_some hc
    have hclt : c < 2 ^ 64 := hvals c hcmem
    have hloopc : cas_loop (version_handle expected) initial obs = some c := by
      rw [hloop, hc]
    have hex : atomsnap_compare_exchange_version_slot tbl slots fi initial
        obs expected new_ver =
        (match resolve_handle tbl (version_handle expected) with
          | none =>
            ({ success := true, cb_written := some (version_handle new_ver)
               captured := some c, detach := none } : CmpxchgResult)
          | some s =>
            { success := true, cb_written := some (version_handle new_ver)
              captured := some c
              detach := some (detach_old_version fi (slots s.1 s.2)
                (c / 2 ^ 40)) }) := by
      simp only [atomsnap_compare_exchange_version_slot,
        if_neg (not_not_intro hinit), hloopc, refs_extract_eq_div c hclt]
    rw [hex]
    cases hresolve : resolve_handle tbl (version_handle expected) with
    | none =>
      refine ⟨⟨fun _ => hiff.mp hall, fun _ => rfl⟩, ?_, ?_⟩
      · intro h
        exact absurd h (by simp)
      · intro _
        refine ⟨rfl, hdiv0, hc.symm, ?_⟩
        intro c2 hc2
        refine ⟨fun _ => rfl, ?_⟩
        intro s hs
        exact absurd hs (by simp)
    | some s0 =>
      refine ⟨⟨fun _ => hiff.mp hall, fun _ => rfl⟩, ?_, ?_⟩
      · intro h
        exact absurd h (by simp)
      · intro _
        refine ⟨rfl, hdiv0, hc.symm, ?_⟩
        intro c2 hc2
        have hc2c : c2 = c := by
          rw [hc] at hc2
          exact (Option.some.inj hc2).symm
        subst hc2c
        refine ⟨?_, ?_⟩
        · intro hnone
          exact absurd hnone (by simp)
        · intro s hs
          have hs0 : s0 = s := Option.some.inj hs
          subst hs0
          rfl
  · have hloop :=
      cas_loop_characterization (version_handle expected) obs initial
    rw [if_neg hall] at hloop
    have hex : atomsnap_compare_exchange_version_slot tbl slots fi initial
        obs expected new_ver =
        ({ success := false, cb_written := none, captured := none
           detach := none } : CmpxchgResult) := by
      by_cases hinit : initial &&& HANDLE_MASK_64 = version_handle expected
      · simp only [atomsnap_compare_exchange_version_slot,
          if_neg (not_not_intro hinit), hloop]
      · simp only [atomsnap_compare_exchange_version_slot, if_pos hinit]
    rw [hex]
    refine ⟨⟨fun h => absurd h (by simp), fun h => absurd (hiff.mpr h) hall⟩,
      fun _ => ⟨rfl, rfl⟩, ?_⟩
    intro h
    exact absurd h (by simp)

/-- The expected (currently published) version used by the C4 witness. -/
def vExpect : AtomsnapVersion :=
  { object := none, free_context := none, gate := some gateW,
    inner_ref_cnt := 0, link_handle := 1 }

/-- Claim C4 witness: a successful compare-exchange whose initial load
saw outer count 3 but whose successful CAS captured outer count 5 debits
with 5, the count captured by the CAS itself. -/
theorem claim_C4_cmpxchg_witness :
    (atomsnap_compare_exchange_version_slot tblW slotsC1 1 (3 * 2 ^ 40 + 1)
        [5 * 2 ^ 40 + 1] (some vExpect) none).detach
      = some (detach_old_version 1 (slotsC1 11 1)
        ((5 * 2 ^ 40 + 1) / 2 ^ 40)) :=
  ((((claim_C4_cmpxchg tblW slotsC1 1 (3 * 2 ^ 40 + 1) [5 * 2 ^ 40 + 1]
        (some vExpect) none (by decide) (by decide)).2.2
      (by decide)).2.2.2 (5 * 2 ^ 40 + 1) (by decide)).2 (11, 1) (by decide))
